import Mathlib

/-!
Verification of the loxprox gateway against its specification.

The development shallow-embeds the relevant parts of the Python sources:
  * `src/loxprox/inputs/parser.py`   (InputParser)
  * `src/loxprox/handlers/lights.py` (LightHandler.process)
  * `src/loxprox/output_manager.py`  (OutputManager.route_data)
  * `src/loxprox/config.py`          (validate_config, routing section)
  * `src/loxprox/outputs/mqtt.py`    (MQTTOutput.send / _reconnect_loop)

Python values flowing through dicts are modelled by the inductive `PyObj`;
Python dicts are association lists in insertion order (assignment to a fresh
key appends, assignment to a present key updates in place), matching CPython
dict semantics.  Python floats are carried as rationals holding the decimal
value of the literal; no claim below depends on binary64 rounding.
-/

set_option maxHeartbeats 1000000

/-- Model of a Python value as it occurs in this program's dicts. -/
inductive PyObj where
  | null
  | bool (b : Bool)
  | int (n : Int)
  | float (q : ℚ)
  | str (s : String)
  | list (xs : List PyObj)
  | dict (kvs : List (String × PyObj))

/-- Association-list lookup with string keys: Python `d.get(k)` / `d[k]`. -/
def lookupStr {α : Type} : List (String × α) → String → Option α
  | [], _ => none
  | (k, v) :: rest, key => if k = key then some v else lookupStr rest key

/-- Python `d[k] = v`: update in place if the key is present, else append.
CPython dicts preserve insertion order, which this mirrors. -/
def setKey {α : Type} : List (String × α) → String → α → List (String × α)
  | [], key, v => [(key, v)]
  | (k, w) :: rest, key, v =>
    if k = key then (k, v) :: rest else (k, w) :: setKey rest key v

/-- Python truthiness (`if not x`) on the modelled values. -/
def pyFalsy : PyObj → Bool
  | .null => true
  | .bool b => !b
  | .int n => n == 0
  | .float q => q == 0
  | .str s => s.isEmpty
  | .list xs => xs.isEmpty
  | .dict kvs => kvs.isEmpty

/-- Shape tests (Python `isinstance(x, dict)` / `isinstance(x, list)`). -/
def isDictB : PyObj → Bool
  | .dict _ => true
  | _ => false

def isListB : PyObj → Bool
  | .list _ => true
  | _ => false

/-- Python `str(x)`.  Faithful for the cases the program feeds it
(strings, ints, bools, None); the rendering of floats and containers is
irrelevant to every claim and left as a placeholder. -/
def pyStr : PyObj → String
  | .str s => s
  | .int n => toString n
  | .bool b => if b then "True" else "False"
  | .null => "None"
  | .float _ => "<float>"
  | .list _ => "<list>"
  | .dict _ => "<dict>"

/-- The whitespace set of Python `str.strip()` (ASCII part; the inputs in
question are ASCII). -/
def pyIsSpace (c : Char) : Bool :=
  c == ' ' || c == '\t' || c == '\n' || c == '\r' ||
    c == Char.ofNat 11 || c == Char.ofNat 12

/-- Python `s.strip()` on the character list. -/
def pyStripList (l : List Char) : List Char :=
  ((l.dropWhile pyIsSpace).reverse.dropWhile pyIsSpace).reverse

/-- Python `s.strip()`. -/
def pyStrip (s : String) : String := ⟨pyStripList s.toList⟩

/-- Worker for `pySplit`: accumulates the current field (reversed). -/
def splitOnCharAux (sep : Char) : List Char → List Char → List (List Char)
  | [], acc => [acc.reverse]
  | c :: cs, acc =>
    if c == sep then acc.reverse :: splitOnCharAux sep cs []
    else splitOnCharAux sep cs (c :: acc)

/-- Python `s.split(sep)` for a one-character separator: splits at every
occurrence, keeping empty fields. -/
def pySplit (s : String) (sep : Char) : List String :=
  (splitOnCharAux sep s.toList []).map (fun l => ⟨l⟩)

/-- Split at the first occurrence of `sep` only (Python `s.split(sep, 1)`),
returning `none` when `sep` does not occur. -/
def splitFirstChar (sep : Char) : List Char → Option (List Char × List Char)
  | [] => none
  | c :: cs =>
    if c == sep then some ([], cs)
    else
      match splitFirstChar sep cs with
      | none => none
      | some (a, b) => some (c :: a, b)

/-- Python `c in s` for a single character. -/
def strContains (s : String) (c : Char) : Bool := s.toList.contains c

/-- `[a-z]` of the device regex (ASCII lowercase). -/
def isAsciiLower (c : Char) : Bool := 'a' ≤ c && c ≤ 'z'

/-- Decimal digit list to natural number. -/
def digitsToNat (l : List Char) : Nat :=
  l.foldl (fun n c => n * 10 + (c.toNat - 48)) 0

/-- Python `int(s)`: optional surrounding whitespace, optional sign, a
nonempty digit run.  (Python also allows `_` digit separators; no input in
this development uses them.) -/
def pyParseInt (s : String) : Option Int :=
  let l := pyStripList s.toList
  match l with
  | [] => none
  | c :: cs =>
    let sign : Int := if c == '-' then -1 else 1
    let digits := if c == '-' || c == '+' then cs else l
    if digits.isEmpty || !(digits.all Char.isDigit) then none
    else some (sign * (digitsToNat digits : Int))

/-- Python `float(s)` restricted to the plain decimal forms the wire format
uses (optional sign, digits with at most one point).  The value is the exact
decimal rational; binary64 rounding is not modelled, and no claim compares
float values. -/
def pyParseFloat (s : String) : Option ℚ :=
  let l := pyStripList s.toList
  match l with
  | [] => none
  | c :: cs =>
    let sign : ℚ := if c == '-' then -1 else 1
    let body := if c == '-' || c == '+' then cs else l
    let intPart := body.takeWhile Char.isDigit
    let rest := body.drop intPart.length
    match rest with
    | [] =>
      if intPart.isEmpty then none
      else some (sign * (digitsToNat intPart : ℚ))
    | p :: fracs =>
      if p == '.' && !fracs.isEmpty && fracs.all Char.isDigit &&
          (intPart.length + 1 + fracs.length == body.length) then
        some (sign * ((digitsToNat (intPart ++ fracs) : ℚ) / (10 : ℚ) ^ fracs.length))
      else if p == '.' && fracs.isEmpty && !intPart.isEmpty then
        some (sign * (digitsToNat intPart : ℚ))
      else none

/-- `InputParser.device_pattern` = `^([a-z]+)([0-9]+)$`: greedy lowercase run
followed by a nonempty digit run, nothing else.  (Python `\d` also accepts
non-ASCII decimal digits; the wire format is ASCII.) -/
def match_device (s : String) : Option (String × String) :=
  let l := s.toList
  let letters := l.takeWhile isAsciiLower
  let rest := l.drop letters.length
  if letters.isEmpty || rest.isEmpty || !(rest.all Char.isDigit) then none
  else some (⟨letters⟩, ⟨rest⟩)

/-- `InputParser._parse_power_meter_payload`: comma-separated `key:value`
pairs, each value parsed as a float; invalid pairs are skipped; fails when no
pair parsed or the required key `pf` is absent. -/
def parse_power_meter_payload (payload : String) : Option (List (String × PyObj)) :=
  let pairs := pySplit payload ','
  let result := pairs.foldl
    (fun acc pair =>
      if !(strContains pair ':') then acc
      else
        match splitFirstChar ':' pair.toList with
        | none => acc
        | some (k, vstr) =>
          match pyParseFloat ⟨vstr⟩ with
          | none => acc
          | some q => setKey acc ⟨k⟩ (.float q))
    []
  if result.isEmpty || (lookupStr result "pf").isNone then none else some result

/-- `InputParser._convert_payload`.  Python computes e.g.
`int((payload // 1000000) * 255 / 100)`: the product is an exact int, the
float division by 100 is correctly rounded, and for products `≤ 254745` the
truncation of that float equals integer division by 100 (an exact quotient is
either integral or at least 1/100 away from the next integer, far above the
float error).  All divisions occur on nonnegative operands, where Python `//`
and `%` agree with Lean's integer division and modulus. -/
def convert_payload (device_type : String) (payload : Int) : Option PyObj :=
  if device_type = "ph" then
    if 0 ≤ payload ∧ payload ≤ 100100100 then
      some (.dict
        [("mode", .str "rgb"),
         ("b", .int (payload / 1000000 * 255 / 100)),
         ("g", .int (payload / 1000 % 1000 * 255 / 100)),
         ("r", .int (payload % 1000 * 255 / 100))])
    else if 200002700 ≤ payload ∧ payload ≤ 201006500 then
      some (.dict
        [("mode", .str "cct"),
         ("brightness", .int (payload / 10000 % 1000)),
         ("kelvin", .int (payload % 10000))])
    else none
  else if device_type = "pm" then
    some (.dict [("raw_value", .int payload)])
  else none

/-- `InputParser._parse_legacy_data`.  Note the source splits on EVERY `.`
(`data.split('.')`) and demands exactly two parts. -/
def parse_legacy_data (data : String) : Option (List (String × PyObj)) :=
  match pySplit data '.' with
  | [device_str, payload_str] =>
    match match_device device_str with
    | none => none
    | some (device_type, device_id) =>
      if strContains payload_str ':' && device_type == "pm" then
        match parse_power_meter_payload payload_str with
        | none => none
        | some v =>
          some [("device_type", .str device_type),
                ("device_id", .str device_id),
                ("value", .dict v)]
      else
        match pyParseInt payload_str with
        | none => none
        | some payload =>
          match convert_payload device_type payload with
          | none => none
          | some v =>
            some [("device_type", .str device_type),
                  ("device_id", .str device_id),
                  ("value", v)]
  | _ => none

/-- `InputParser._parse_json_data`, factored over the result of the external
`json.loads` call (the JSON library is Python stdlib, outside this
repository; theorems quantify over its outcome).  A non-dict JSON value makes
the source either return None or raise (caught in `parse_packet`); both are
`none` at packet level, modelled as `none` here. -/
def parse_json_data_loaded (loaded : Option PyObj) : Option (List (String × PyObj)) :=
  match loaded with
  | none => none
  | some (.dict kvs) =>
    if (lookupStr kvs "type").isNone || (lookupStr kvs "id").isNone then none
    else
      some [("device_type", (lookupStr kvs "type").getD .null),
            ("device_id", .str (pyStr ((lookupStr kvs "id").getD .null))),
            ("value", (lookupStr kvs "value").getD (.dict []))]
  | some _ => none

/-- Test of `data.strip().startswith('{')` (`{` written via its code point to
keep it out of the source text). -/
def startsWithBrace (s : String) : Bool :=
  match (pyStrip s).toList with
  | [] => false
  | c :: _ => c == Char.ofNat 123

/-- `InputParser._parse_data`. -/
def parse_data (jsonLoads : String → Option PyObj) (data : String) :
    Option (List (String × PyObj)) :=
  if startsWithBrace data then parse_json_data_loaded (jsonLoads data)
  else parse_legacy_data data

/-- Field extraction of `InputParser.parse_packet`: the source splits the
stripped packet at EVERY `;` and keeps fields 0, 1 and 2. -/
def packet_fields (packet : String) : Option (String × String × String) :=
  let parts := pySplit (pyStrip packet) ';'
  if parts.length < 3 then none
  else some (parts.getD 0 "", parts.getD 1 "", parts.getD 2 "")

/-- `InputParser.parse_packet`. -/
def parse_packet (jsonLoads : String → Option PyObj) (packet : String) :
    Option (List (String × PyObj)) :=
  match packet_fields packet with
  | none => none
  | some (timestamp, source, data) =>
    match parse_data jsonLoads data with
    | none => none
    | some parsed =>
      some (setKey (setKey parsed "timestamp" (.str timestamp)) "source" (.str source))

/-- Python `max(lo, min(hi, v))` as used by `LightHandler.process`.  Bools
participate as their integer value (Python bool is an int subclass; the
bool/int distinction of the stored result is not observed anywhere).  A
non-numeric operand raises TypeError, which the handler's bare `except`
converts to a rejection — modelled as `none`.  When the clamp hits a bound
Python returns the int bound even for a float input; only the value matters
to the claims, carried here in the input's numeric kind. -/
def clamp_obj (lo hi : Int) (v : PyObj) : Option PyObj :=
  match v with
  | .int n => some (.int (max lo (min hi n)))
  | .bool b => some (.int (max lo (min hi (if b then 1 else 0))))
  | .float q => some (.float (max (lo : ℚ) (min (hi : ℚ) q)))
  | _ => none

/-- Result construction of `LightHandler.process` (lines 59-74): the five
canonical fields, then `raw_packet` / `raw_data_string` copied over when
present.  `data['device_id']` is a raw indexing (also used in the debug log
line inside each branch): a missing key raises KeyError, caught by the bare
`except` — modelled as `none`. -/
def light_mk_result (data : List (String × PyObj)) (v : List (String × PyObj)) :
    Option (List (String × PyObj)) :=
  match lookupStr data "device_id" with
  | none => none
  | some did =>
    let base : List (String × PyObj) :=
      [("device_type", .str "ph"),
       ("device_id", did),
       ("value", .dict v),
       ("timestamp", (lookupStr data "timestamp").getD .null),
       ("source", (lookupStr data "source").getD .null)]
    let r1 := match lookupStr data "raw_packet" with
      | some rp => setKey base "raw_packet" rp
      | none => base
    let r2 := match lookupStr data "raw_data_string" with
      | some rd => setKey r1 "raw_data_string" rd
      | none => r1
    some r2

/-- `LightHandler.process`.  The comparison `data.get('device_type') !=
self.device_type` only passes for the string `"ph"`; a non-dict `value`
makes `value.get` raise (caught → rejection). -/
def light_process (data : List (String × PyObj)) : Option (List (String × PyObj)) :=
  match lookupStr data "device_type" with
  | some (.str "ph") =>
    match (lookupStr data "value").getD (.dict []) with
    | .dict vkvs =>
      match lookupStr vkvs "mode" with
      | some (.str "rgb") =>
        match clamp_obj 0 255 ((lookupStr vkvs "r").getD (.int 0)),
              clamp_obj 0 255 ((lookupStr vkvs "g").getD (.int 0)),
              clamp_obj 0 255 ((lookupStr vkvs "b").getD (.int 0)) with
        | some r, some g, some b =>
          light_mk_result data (setKey (setKey (setKey vkvs "r" r) "g" g) "b" b)
        | _, _, _ => none
      | some (.str "cct") =>
        match clamp_obj 0 100 ((lookupStr vkvs "brightness").getD (.int 0)),
              clamp_obj 2700 6500 ((lookupStr vkvs "kelvin").getD (.int 3000)) with
        | some br, some kv =>
          light_mk_result data (setKey (setKey vkvs "brightness" br) "kelvin" kv)
        | _, _ => none
      | _ => none
    | _ => none
  | _ => none

/-- Outcome of one `output.send(data)` call: a returned boolean or a raised
exception (caught by `route_data`). -/
inductive SendOutcome where
  | ok (b : Bool)
  | exc

/-- Python `==` on the hashable (scalar) values that can be dict keys,
including the numeric cross-type equalities (`True == 1`, `1 == 1.0`).
Lists/dicts are unhashable and never reach a key comparison. -/
def pyKeyBeq : PyObj → PyObj → Bool
  | .str a, .str b => a == b
  | .int a, .int b => a == b
  | .bool a, .bool b => a == b
  | .int a, .bool b => a == (if b then (1 : Int) else 0)
  | .bool a, .int b => (if a then (1 : Int) else 0) == b
  | .float a, .float b => a == b
  | .float a, .int b => a == (b : ℚ)
  | .int a, .float b => (a : ℚ) == b
  | .float a, .bool b => a == ((if b then 1 else 0 : Int) : ℚ)
  | .bool a, .float b => ((if a then 1 else 0 : Int) : ℚ) == b
  | .null, .null => true
  | _, _ => false

/-- A value Python can use as a dict key (hashable). -/
def scalar_key : PyObj → Bool
  | .list _ => false
  | .dict _ => false
  | _ => true

/-- `results[output_name] = success` with Python dict key semantics. -/
def set_result (results : List (PyObj × Bool)) (key : PyObj) (v : Bool) :
    List (PyObj × Bool) :=
  match results with
  | [] => [(key, v)]
  | (k, w) :: rest =>
    if pyKeyBeq k key then (k, v) :: rest else (k, w) :: set_result rest key v

/-- The per-name body of `OutputManager.route_data`'s loop: a name missing
from the initialized outputs records `False`; a send that raises records
`False`; otherwise the returned boolean is recorded.  `self.outputs` has
string keys, so a non-string name is never found. -/
def send_result (sinks : List (String × (List (String × PyObj) → SendOutcome)))
    (data : List (String × PyObj)) (name : String) : Bool :=
  match lookupStr sinks name with
  | none => false
  | some f =>
    match f data with
    | .ok b => b
    | .exc => false

def route_loop (sinks : List (String × (List (String × PyObj) → SendOutcome)))
    (data : List (String × PyObj)) :
    List PyObj → List (PyObj × Bool) → Option (List (PyObj × Bool))
  | [], acc => some acc
  | n :: rest, acc =>
    if scalar_key n then
      let success :=
        match n with
        | .str s => send_result sinks data s
        | _ => false
      route_loop sinks data rest (set_result acc n success)
    else none

/-- `OutputManager.route_data`.  `sinks` is `self.outputs` (name → send
behaviour of the initialized sink); the function returns `none` exactly
where the source would raise outside its try/except (non-dict routing entry,
non-iterable outputs value, unhashable name); iterating a string yields its
characters and iterating a dict its keys, as in Python. -/
def route_data (routing : List (String × PyObj))
    (sinks : List (String × (List (String × PyObj) → SendOutcome)))
    (data : List (String × PyObj)) : Option (List (PyObj × Bool)) :=
  match lookupStr data "device_type" with
  | none => some []
  | some dt =>
    if pyFalsy dt then some []
    else
      let rc : PyObj :=
        match dt with
        | .str s => (lookupStr routing s).getD (.dict [])
        | _ => .dict []
      match rc with
      | .dict rkvs =>
        let touts := (lookupStr rkvs "outputs").getD (.list [])
        if pyFalsy touts then some []
        else
          match touts with
          | .list names => route_loop sinks data names []
          | .str s => route_loop sinks data (s.toList.map (fun c => .str ⟨[c]⟩)) []
          | .dict kvs2 => route_loop sinks data (kvs2.map (fun p => .str p.1)) []
          | _ => none
      | _ => none

/-- The routing-normalization step of `validate_config` (config.py lines
90-96), applied to one routing entry. -/
def normalize_routing_entry (rc : PyObj) : PyObj :=
  match rc with
  | .dict kvs =>
    match lookupStr kvs "outputs" with
    | none => .dict (setKey kvs "outputs" (.list []))
    | some (.list _) => .dict kvs
    | some v => .dict (setKey kvs "outputs" (.list [v]))
  | _ => .dict [("outputs", .list [])]

/-- The routing loop of `validate_config` over the whole `routing` mapping
(iteration order = insertion order, entries replaced in place). -/
def normalize_routing (routing : List (String × PyObj)) : List (String × PyObj) :=
  routing.map (fun p => (p.1, normalize_routing_entry p.2))

/-- The fixed `type_map` lookup of `MQTTOutput.send` with its fallback to
the raw device type. -/
def type_map_lookup (device_type : String) : String :=
  if device_type = "ph" then "hue"
  else if device_type = "pm" then "powermeter"
  else device_type

/-- `MQTTOutput.send`, with the transport abstracted: `clientOk` models
`self.client is not None`, `connected` models `self.connected`, and
`publishAccepts` the `rc == MQTT_ERR_SUCCESS` outcome of `client.publish`.
Returns the `(topic, payload)` actually published (or `none` when nothing
is published) together with the boolean return value. -/
def mqtt_send (topicRoot : String) (clientOk connected publishAccepts : Bool)
    (data : List (String × PyObj)) : Option (String × String) × Bool :=
  if !clientOk || !connected then (none, false)
  else
    let rawOpt : Option String :=
      match lookupStr data "raw_packet" with
      | some rp => some (pyStr rp)
      | none =>
        match lookupStr data "_raw_packet" with
        | some rp => some (pyStr rp)
        | none =>
          let timestamp := pyStr ((lookupStr data "timestamp").getD (.str ""))
          let source := pyStr ((lookupStr data "source").getD (.str ""))
          let device_type := pyStr ((lookupStr data "device_type").getD (.str ""))
          let device_id := pyStr ((lookupStr data "device_id").getD (.str ""))
          match lookupStr data "raw_data_string" with
          | some ds => some (timestamp ++ ";" ++ source ++ ";" ++ pyStr ds)
          | none =>
            match lookupStr data "raw_value" with
            | some rv =>
              some (timestamp ++ ";" ++ source ++ ";" ++
                device_type ++ device_id ++ "." ++ pyStr rv)
            | none => none
    match rawOpt with
    | none => (none, false)
    | some raw =>
      let dtv := (lookupStr data "device_type").getD (.str "unknown")
      let topicName :=
        match dtv with
        | .str s => type_map_lookup s
        | v => pyStr v
      ((some (topicRoot ++ "/type/" ++ topicName, raw)), publishAccepts)

/-- Retry configuration of `MQTTOutput` (constructor defaults 60 / 15 /
1800). -/
structure MqttRetryConfig where
  retry_initial_interval : Nat
  retry_initial_attempts : Nat
  retry_long_interval : Nat

/-- Interval selection of `_reconnect_loop` (mqtt.py lines 233-244). -/
def retry_interval_for (cfg : MqttRetryConfig) (attempt : Nat) : Nat :=
  if attempt ≤ cfg.retry_initial_attempts then cfg.retry_initial_interval
  else cfg.retry_long_interval

/-- `MQTTOutput._reconnect_loop` as a function of the successive
`_do_connect` outcomes (the trace ends when the stop signal, or an
externally established connection, ends the loop).  Each iteration
increments the attempt counter, selects its interval, and on success resets
the counter to 0 (done by `_do_connect`), marks connected and returns.
Result: the `(attempt number, selected interval)` log, the final counter
value, and the connected flag. -/
def reconnect_loop (cfg : MqttRetryConfig) :
    Nat → List Bool → List (Nat × Nat) × Nat × Bool
  | attempts, [] => ([], attempts, false)
  | attempts, outcome :: rest =>
    let a := attempts + 1
    let interval := retry_interval_for cfg a
    if outcome then ([(a, interval)], 0, true)
    else
      let r := reconnect_loop cfg a rest
      ((a, interval) :: r.1, r.2)

/-! ## Association-list lemmas -/

theorem lookupStr_setKey_self {α : Type} (l : List (String × α)) (k : String) (v : α) :
    lookupStr (setKey l k v) k = some v := by
  induction l with
  | nil => simp [setKey, lookupStr]
  | cons p rest ih =>
    obtain ⟨k', w⟩ := p
    by_cases h : k' = k
    · simp [setKey, lookupStr, h]
    · simp [setKey, lookupStr, h, ih]

theorem lookupStr_setKey_ne {α : Type} (l : List (String × α)) (k' k : String) (v : α)
    (h : k' ≠ k) : lookupStr (setKey l k' v) k = lookupStr l k := by
  induction l with
  | nil => simp [setKey, lookupStr, h]
  | cons p rest ih =>
    obtain ⟨k0, w⟩ := p
    by_cases h0 : k0 = k'
    · subst h0
      simp [setKey, lookupStr, h]
    · simp [setKey, lookupStr, h0, ih]

theorem keys_setKey_absent {α : Type} (l : List (String × α)) (k : String) (v : α)
    (h : lookupStr l k = none) :
    (setKey l k v).map Prod.fst = l.map Prod.fst ++ [k] := by
  induction l with
  | nil => simp [setKey]
  | cons p rest ih =>
    obtain ⟨k0, w⟩ := p
    by_cases h0 : k0 = k
    · simp [lookupStr, h0] at h
    · simp [lookupStr, h0] at h
      simp [setKey, h0, ih h]

theorem lookupStr_eq_none_of_not_mem {α : Type} (l : List (String × α)) (k : String)
    (h : k ∉ l.map Prod.fst) : lookupStr l k = none := by
  induction l with
  | nil => rfl
  | cons p rest ih =>
    obtain ⟨k0, w⟩ := p
    rw [List.map_cons] at h
    have h1 : k0 ≠ k := fun e => h (by rw [← e]; exact List.mem_cons_self _ _)
    have h2 : k ∉ rest.map Prod.fst := fun hm => h (List.mem_cons_of_mem _ hm)
    simp [lookupStr, h1, ih h2]

/-! ## Split lemmas (Python `str.split`) -/

theorem splitOnCharAux_append_sep (sep : Char) (l₁ l₂ acc : List Char)
    (h : sep ∉ l₁) :
    splitOnCharAux sep (l₁ ++ sep :: l₂) acc =
      (acc.reverse ++ l₁) :: splitOnCharAux sep l₂ [] := by
  induction l₁ generalizing acc with
  | nil => simp [splitOnCharAux]
  | cons c cs ih =>
    rw [List.mem_cons] at h
    push_neg at h
    have hc : (c == sep) = false := beq_eq_false_iff_ne.mpr (fun e => h.1 e.symm)
    rw [List.cons_append, splitOnCharAux, hc]
    simp only [Bool.false_eq_true, if_false]
    rw [ih (c :: acc) h.2, List.reverse_cons, List.append_assoc, List.singleton_append]

theorem splitOnCharAux_ne_nil (sep : Char) (l acc : List Char) :
    splitOnCharAux sep l acc ≠ [] := by
  induction l generalizing acc with
  | nil => simp [splitOnCharAux]
  | cons c cs ih =>
    by_cases hc : (c == sep) = true
    · simp [splitOnCharAux, hc]
    · simp at hc
      simp [splitOnCharAux, hc, ih]

theorem pySplit_append_sep (a rest : String) (sep : Char)
    (h : sep ∉ a.toList) :
    pySplit (a ++ String.mk [sep] ++ rest) sep = a :: pySplit rest sep := by
  have hl : (a ++ String.mk [sep] ++ rest).toList = a.toList ++ sep :: rest.toList := by
    show (a ++ String.mk [sep] ++ rest).data = a.data ++ sep :: rest.data
    simp [String.data_append]
  simp only [pySplit, hl, splitOnCharAux_append_sep sep _ _ _ h, List.map_cons,
    List.reverse_nil, List.nil_append]
  rfl

/-! ## C10: keys of every accepted reading -/

theorem parse_legacy_keys (d : String) (p : List (String × PyObj))
    (h : parse_legacy_data d = some p) :
    p.map Prod.fst = ["device_type", "device_id", "value"] := by
  unfold parse_legacy_data at h
  repeat' split at h
  all_goals first
    | (cases h; rfl)
    | simp_all

theorem parse_data_keys (jl : String → Option PyObj) (d : String)
    (p : List (String × PyObj)) (h : parse_data jl d = some p) :
    p.map Prod.fst = ["device_type", "device_id", "value"] := by
  unfold parse_data at h
  split at h
  · unfold parse_json_data_loaded at h
    repeat' split at h
    all_goals first
      | (cases h; rfl)
      | simp_all
  · exact parse_legacy_keys d p h

/-- C10.  Every packet the decoder accepts yields a mapping whose keys are
exactly `device_type`, `device_id`, `value`, `timestamp`, `source` (in
insertion order); in particular no `raw_packet` or `raw_data_string` key is
ever attached by the decoder. -/
theorem c10_reading_keys (jl : String → Option PyObj) (packet : String)
    (r : List (String × PyObj)) (h : parse_packet jl packet = some r) :
    r.map Prod.fst = ["device_type", "device_id", "value", "timestamp", "source"] ∧
    lookupStr r "raw_packet" = none ∧ lookupStr r "raw_data_string" = none := by
  unfold parse_packet at h
  split at h
  · exact absurd h (by simp)
  · rename_i fields ts src data heq
    split at h
    · exact absurd h (by simp)
    · rename_i parsed hparsed
      have hkeys := parse_data_keys jl data parsed hparsed
      have hts : lookupStr parsed "timestamp" = none := by
        apply lookupStr_eq_none_of_not_mem
        rw [hkeys]
        simp
      have h1 : (setKey parsed "timestamp" (.str ts)).map Prod.fst =
          ["device_type", "device_id", "value", "timestamp"] := by
        rw [keys_setKey_absent _ _ _ hts, hkeys]
        rfl
      have hsrc : lookupStr (setKey parsed "timestamp" (.str ts)) "source" = none := by
        apply lookupStr_eq_none_of_not_mem
        rw [h1]
        simp
      have h2 : r.map Prod.fst =
          ["device_type", "device_id", "value", "timestamp", "source"] := by
        cases h
        rw [keys_setKey_absent _ _ _ hsrc, h1]
        rfl
      refine ⟨h2, ?_, ?_⟩ <;>
        (apply lookupStr_eq_none_of_not_mem; rw [h2]; simp)

/-- Witness for C10 at a concrete accepted packet. -/
theorem c10_reading_keys_witness :
    ∃ r, parse_packet (fun _ => none) "2025-07-18 12:03:06;udplight;ph9.100050025" = some r ∧
      r.map Prod.fst = ["device_type", "device_id", "value", "timestamp", "source"] ∧
      lookupStr r "raw_packet" = none ∧ lookupStr r "raw_data_string" = none :=
  ⟨_, rfl, c10_reading_keys (fun _ => none)
    "2025-07-18 12:03:06;udplight;ph9.100050025" _ rfl⟩

/-! ## C4 / C5: light payload decoding -/

/-- C4.  For the light type, any integer payload in `[0, 100100100]` decodes
to the RGB value with each 3-digit group scaled by `group * 255 / 100` under
truncating division (b from the millions group, g from the thousands group,
r from the units group); `"ph9.100050025"` decodes to r=63, g=127, b=255;
and a payload outside both `[0, 100100100]` and `[200002700, 201006500]`
decodes to `none` (a DecodeError outcome, not a fault — the function is
total). -/
theorem c4_light_rgb_decode : ∀ p : Int,
    (0 ≤ p → p ≤ 100100100 →
      convert_payload "ph" p = some (.dict
        [("mode", .str "rgb"),
         ("b", .int (p / 1000000 * 255 / 100)),
         ("g", .int (p / 1000 % 1000 * 255 / 100)),
         ("r", .int (p % 1000 * 255 / 100))])) ∧
    (¬(0 ≤ p ∧ p ≤ 100100100) → ¬(200002700 ≤ p ∧ p ≤ 201006500) →
      convert_payload "ph" p = none) ∧
    parse_legacy_data "ph9.100050025" = some
      [("device_type", .str "ph"), ("device_id", .str "9"),
       ("value", .dict [("mode", .str "rgb"), ("b", .int 255),
                        ("g", .int 127), ("r", .int 63)])] := by
  intro p
  refine ⟨fun h1 h2 => ?_, fun h1 h2 => ?_, rfl⟩
  · unfold convert_payload
    rw [if_pos rfl, if_pos ⟨h1, h2⟩]
  · unfold convert_payload
    rw [if_pos rfl, if_neg h1, if_neg h2]

/-- Witness for C4: both branches applied at concrete payloads. -/
theorem c4_light_rgb_decode_witness :
    convert_payload "ph" 100050025 = some (.dict
      [("mode", .str "rgb"),
       ("b", .int (100050025 / 1000000 * 255 / 100)),
       ("g", .int (100050025 / 1000 % 1000 * 255 / 100)),
       ("r", .int (100050025 % 1000 * 255 / 100))]) ∧
    convert_payload "ph" 150000000 = none ∧
    convert_payload "ph" (-7) = none :=
  ⟨(c4_light_rgb_decode 100050025).1 (by norm_num) (by norm_num),
   (c4_light_rgb_decode 150000000).2.1 (by norm_num) (by norm_num),
   (c4_light_rgb_decode (-7)).2.1 (by norm_num) (by norm_num)⟩

/-- C5.  CCT round-trip: for brightness `b ∈ [0,100]` and kelvin
`k ∈ [2700,6500]`, the payload `200000000 + b*10000 + k` lies inside the
accepted CCT range and decodes back to exactly that brightness and kelvin;
`"ph9.201003000"` gives brightness 100 and kelvin 3000. -/
theorem c5_cct_roundtrip :
    (∀ b k : Int, 0 ≤ b → b ≤ 100 → 2700 ≤ k → k ≤ 6500 →
      200002700 ≤ 200000000 + b * 10000 + k ∧
      200000000 + b * 10000 + k ≤ 201006500 ∧
      convert_payload "ph" (200000000 + b * 10000 + k) = some (.dict
        [("mode", .str "cct"), ("brightness", .int b), ("kelvin", .int k)])) ∧
    parse_legacy_data "ph9.201003000" = some
      [("device_type", .str "ph"), ("device_id", .str "9"),
       ("value", .dict [("mode", .str "cct"), ("brightness", .int 100),
                        ("kelvin", .int 3000)])] := by
  refine ⟨fun b k hb1 hb2 hk1 hk2 => ⟨by omega, by omega, ?_⟩, rfl⟩
  unfold convert_payload
  rw [if_pos rfl, if_neg (by omega), if_pos (by omega)]
  have h1 : (200000000 + b * 10000 + k) / 10000 % 1000 = b := by omega
  have h2 : (200000000 + b * 10000 + k) % 10000 = k := by omega
  rw [h1, h2]

/-- Witness for C5 at brightness 100, kelvin 3000. -/
theorem c5_cct_roundtrip_witness :
    200002700 ≤ 200000000 + (100 : Int) * 10000 + 3000 ∧
    200000000 + (100 : Int) * 10000 + 3000 ≤ 201006500 ∧
    convert_payload "ph" (200000000 + (100 : Int) * 10000 + 3000) = some (.dict
      [("mode", .str "cct"), ("brightness", .int 100), ("kelvin", .int 3000)]) :=
  c5_cct_roundtrip.1 100 3000 (by norm_num) (by norm_num) (by norm_num) (by norm_num)

/-! ## C2: legacy split on dots -/

/-- C2 (bug evidence).  The source splits legacy data on EVERY `.` and
demands exactly two parts, so a power-meter payload containing float values
is rejected outright, although (a) the first-dot split would yield the
device token and the full payload, and (b) that payload parses fine through
the power-meter key:value parser (the very example of the source's own
docstring).  -/
theorem c2_legacy_dot_split_bug :
    (pySplit "pm1.pf:5.220,v1:241.0" '.').length = 4 ∧
    parse_legacy_data "pm1.pf:5.220,v1:241.0" = none ∧
    splitFirstChar '.' ("pm1.pf:5.220,v1:241.0").toList =
      some (("pm1").toList, ("pf:5.220,v1:241.0").toList) ∧
    (parse_power_meter_payload "pf:5.220,v1:241.0").isSome = true ∧
    ((parse_power_meter_payload "pf:5.220,v1:241.0").getD []).map Prod.fst =
      ["pf", "v1"] := by
  refine ⟨by decide, rfl, by decide, rfl, rfl⟩

/-! ## C3: semicolon splitting -/

/-- C3 (counterexample).  On an input line with three semicolons, the third
field handed to data parsing is only the segment up to the next `;`, not the
whole remainder after the second separator: the claim's required payload
`"a;b"` differs from what the code extracts. -/
theorem c3_semicolon_counterexample :
    packet_fields "t;s;a;b" = some ("t", "s", "a") ∧ ("a" : String) ≠ "a;b" :=
  ⟨rfl, by decide⟩

/-- C3 (amended).  The decoder splits at EVERY `;`: on a line with more than
two semicolons the payload field handed to data parsing is exactly the
semicolon-free third segment, and all content after the third separator is
discarded (the packet is still accepted as long as at least three fields
exist). -/
theorem c3_semicolon_truncation (a b c d : String)
    (hstrip : pyStrip (a ++ ";" ++ b ++ ";" ++ c ++ ";" ++ d) =
      a ++ ";" ++ b ++ ";" ++ c ++ ";" ++ d)
    (ha : ';' ∉ a.toList) (hb : ';' ∉ b.toList) (hc : ';' ∉ c.toList) :
    packet_fields (a ++ ";" ++ b ++ ";" ++ c ++ ";" ++ d) = some (a, b, c) := by
  have hsemi : (";" : String) = String.mk [';'] := rfl
  have hsplit : pySplit (a ++ ";" ++ b ++ ";" ++ c ++ ";" ++ d) ';' =
      a :: b :: c :: pySplit d ';' := by
    have e1 : a ++ ";" ++ b ++ ";" ++ c ++ ";" ++ d =
        a ++ String.mk [';'] ++ (b ++ ";" ++ c ++ ";" ++ d) := by
      rw [hsemi]
      simp [String.ext_iff, String.data_append]
    have e2 : b ++ ";" ++ c ++ ";" ++ d =
        b ++ String.mk [';'] ++ (c ++ ";" ++ d) := by
      rw [hsemi]
      simp [String.ext_iff, String.data_append]
    have e3 : c ++ ";" ++ d = c ++ String.mk [';'] ++ d := by
      rw [hsemi]
    rw [e1, pySplit_append_sep _ _ _ ha, e2, pySplit_append_sep _ _ _ hb,
      e3, pySplit_append_sep _ _ _ hc]
  unfold packet_fields
  rw [hstrip, hsplit]
  have hlen : (a :: b :: c :: pySplit d ';').length ≥ 3 := by
    simp [List.length_cons]
  rw [if_neg (by omega)]
  rfl

/-- Witness for C3's amended statement on a concrete four-field line. -/
theorem c3_semicolon_truncation_witness :
    packet_fields ("2025-07-18 12:03:06" ++ ";" ++ "udplight" ++ ";" ++ "ph9.1"
        ++ ";" ++ "x;y") =
      some ("2025-07-18 12:03:06", "udplight", "ph9.1") :=
  c3_semicolon_truncation "2025-07-18 12:03:06" "udplight" "ph9.1" "x;y"
    rfl (by decide) (by decide) (by decide)

/-! ## C8: routing normalization -/

/-- C8 (counterexample).  A routing entry whose `outputs` is the number 5 is
normalized to the one-element list `[5]`, not to the empty list the claim
requires for non-list, non-string shapes. -/
theorem c8_routing_counterexample :
    normalize_routing [("ph", PyObj.dict [("outputs", PyObj.int 5)])] =
      [("ph", PyObj.dict [("outputs", PyObj.list [PyObj.int 5])])] ∧
    PyObj.list [PyObj.int 5] ≠ PyObj.list [] :=
  ⟨rfl, by simp⟩

/-- Reduction of `normalize_routing_entry` on a dict entry. -/
theorem normalize_routing_entry_dict (kvs : List (String × PyObj)) :
    normalize_routing_entry (.dict kvs) =
      (match lookupStr kvs "outputs" with
       | none => PyObj.dict (setKey kvs "outputs" (.list []))
       | some (.list _) => PyObj.dict kvs
       | some v => PyObj.dict (setKey kvs "outputs" (.list [v]))) := rfl

/-- C8 (amended).  Routing normalization: a non-mapping entry becomes
`{outputs: []}`; an entry with no `outputs` key gets an empty outputs list;
an entry whose `outputs` is any non-list value — a bare string or any other
shape such as a number — becomes a one-element list containing that value;
a list-valued `outputs` is left untouched. -/
theorem c8_routing_normalization (kvs : List (String × PyObj)) (v w : PyObj)
    (xs : List PyObj) :
    (isDictB v = false → normalize_routing_entry v = .dict [("outputs", .list [])]) ∧
    (lookupStr kvs "outputs" = none →
      normalize_routing_entry (.dict kvs) = .dict (setKey kvs "outputs" (.list [])) ∧
      lookupStr (setKey kvs "outputs" (.list [])) "outputs" = some (.list [])) ∧
    (lookupStr kvs "outputs" = some w → isListB w = false →
      normalize_routing_entry (.dict kvs) = .dict (setKey kvs "outputs" (.list [w])) ∧
      lookupStr (setKey kvs "outputs" (.list [w])) "outputs" = some (.list [w])) ∧
    (lookupStr kvs "outputs" = some (.list xs) →
      normalize_routing_entry (.dict kvs) = .dict kvs) := by
  refine ⟨fun hv => ?_, fun hout => ⟨?_, lookupStr_setKey_self _ _ _⟩,
    fun hout hw => ⟨?_, lookupStr_setKey_self _ _ _⟩, fun hout => ?_⟩
  · cases v <;> simp_all [normalize_routing_entry, isDictB]
  · rw [normalize_routing_entry_dict, hout]
  · rw [normalize_routing_entry_dict, hout]
    cases w <;> simp_all [isListB]
  · rw [normalize_routing_entry_dict, hout]

/-- Witness for C8's amended statement on concrete routing entries. -/
theorem c8_routing_normalization_witness :
    (normalize_routing_entry (.list [.str "telegraf"]) =
      .dict [("outputs", .list [])]) ∧
    (normalize_routing_entry (.dict [("outputs", .str "hue")]) =
      .dict (setKey [("outputs", PyObj.str "hue")] "outputs" (.list [.str "hue"])) ∧
     lookupStr (setKey [("outputs", PyObj.str "hue")] "outputs" (.list [.str "hue"]))
       "outputs" = some (.list [.str "hue"])) ∧
    (normalize_routing_entry (.dict [("enabled", .bool true)]) =
      .dict (setKey [("enabled", PyObj.bool true)] "outputs" (.list [])) ∧
     lookupStr (setKey [("enabled", PyObj.bool true)] "outputs" (.list []))
       "outputs" = some (.list [])) :=
  ⟨(c8_routing_normalization [] (.list [.str "telegraf"]) .null []).1 rfl,
   (c8_routing_normalization [("outputs", PyObj.str "hue")] .null (.str "hue") []).2.2.1
     rfl rfl,
   (c8_routing_normalization [("enabled", PyObj.bool true)] .null .null []).2.1 rfl⟩

/-! ## C6: dispatch to routed sinks -/

theorem set_result_fresh (acc : List (PyObj × Bool)) (k : PyObj) (v : Bool)
    (h : ∀ p ∈ acc, pyKeyBeq p.1 k = false) : set_result acc k v = acc ++ [(k, v)] := by
  induction acc with
  | nil => rfl
  | cons p rest ih =>
    have hp := h p (List.mem_cons_self _ _)
    obtain ⟨k0, w⟩ := p
    simp only [set_result, hp, Bool.false_eq_true, if_false, List.cons_append,
      List.cons.injEq, true_and]
    exact ih (fun q hq => h q (List.mem_cons_of_mem _ hq))

theorem route_loop_str_names (sinks : List (String × (List (String × PyObj) → SendOutcome)))
    (data : List (String × PyObj)) :
    ∀ (names : List String) (acc : List (PyObj × Bool)),
    names.Nodup → (∀ n ∈ names, ∀ p ∈ acc, pyKeyBeq p.1 (.str n) = false) →
    route_loop sinks data (names.map PyObj.str) acc =
      some (acc ++ names.map (fun n => (PyObj.str n, send_result sinks data n))) := by
  intro names
  induction names with
  | nil => intro acc _ _; simp [route_loop]
  | cons n rest ih =>
    intro acc hnd hfresh
    rw [List.map_cons]
    show route_loop sinks data (PyObj.str n :: rest.map PyObj.str) acc = _
    rw [route_loop]
    simp only [scalar_key, if_true]
    rw [set_result_fresh acc (.str n) _ (hfresh n (List.mem_cons_self _ _))]
    rw [List.nodup_cons] at hnd
    have hfresh' : ∀ m ∈ rest, ∀ p ∈ acc ++ [(PyObj.str n, send_result sinks data n)],
        pyKeyBeq p.1 (.str m) = false := by
      intro m hm p hp
      rcases List.mem_append.mp hp with hp | hp
      · exact hfresh m (List.mem_cons_of_mem _ hm) p hp
      · simp at hp
        rw [hp]
        show (n == m) = false
        exact beq_eq_false_iff_ne.mpr (fun e => hnd.1 (e ▸ hm))
    rw [ih _ hnd.2 hfresh']
    simp

/-- C6.  For a reading whose device type has a routing entry listing sink
names `s1..sN` (no duplicates), dispatch produces exactly the pairs
`(si, outcome si)` in list order, where the outcome is `false` for a name
not among the initialized sinks and for a send returning false or raising,
and the send's boolean otherwise; the result covers exactly the listed
names, with as many `true` entries as successful sends; a missing routing
entry or an empty outputs list yields an empty mapping.  (`route_data` is a
total function on these shapes — no exception escapes.) -/
theorem c6_route_dispatch (routing : List (String × PyObj))
    (sinks : List (String × (List (String × PyObj) → SendOutcome)))
    (data : List (String × PyObj)) (dt : String) (rkvs : List (String × PyObj))
    (names : List String)
    (hdt : lookupStr data "device_type" = some (.str dt)) (hne : dt ≠ "") :
    (lookupStr routing dt = some (.dict rkvs) →
      lookupStr rkvs "outputs" = some (.list (names.map PyObj.str)) →
      names.Nodup →
      route_data routing sinks data =
        some (names.map (fun n => (PyObj.str n, send_result sinks data n))) ∧
      (names.map (fun n => (PyObj.str n, send_result sinks data n))).map Prod.fst =
        names.map PyObj.str ∧
      ((names.map (fun n => (PyObj.str n, send_result sinks data n))).filter
        (fun p => p.2)).length = (names.filter (send_result sinks data)).length) ∧
    (lookupStr routing dt = none → route_data routing sinks data = some []) ∧
    (lookupStr routing dt = some (.dict rkvs) →
      lookupStr rkvs "outputs" = some (.list []) →
      route_data routing sinks data = some []) := by
  have hEmpty : dt.isEmpty = false := by
    cases hh : dt.isEmpty
    · rfl
    · exact absurd ((String.isEmpty_iff dt).mp hh) hne
  refine ⟨fun hroute houts hnd => ?_, fun hroute => ?_, fun hroute houts => ?_⟩
  · have hmain : route_data routing sinks data =
        some (names.map (fun n => (PyObj.str n, send_result sinks data n))) := by
      simp only [route_data, hdt, pyFalsy, hEmpty, Bool.false_eq_true, if_false,
        hroute, Option.getD_some, houts]
      cases names with
      | nil => simp [pyFalsy]
      | cons n rest =>
        simp only [pyFalsy, List.map_cons, List.isEmpty_cons, Bool.false_eq_true,
          if_false]
        rw [show (PyObj.str n :: rest.map PyObj.str) = (n :: rest).map PyObj.str from rfl]
        rw [route_loop_str_names sinks data (n :: rest) [] hnd (by simp)]
        simp
    refine ⟨hmain, by simp, ?_⟩
    rw [List.filter_map]
    rw [List.length_map]
    rfl
  · simp [route_data, hdt, pyFalsy, hEmpty, hroute, lookupStr]
  · simp [route_data, hdt, pyFalsy, hEmpty, hroute, houts]

/-- Witness for C6: three routed sinks, one connected and succeeding, one
raising, one not initialized. -/
theorem c6_route_dispatch_witness :
    route_data [("ph", PyObj.dict [("outputs",
        PyObj.list [PyObj.str "hue", PyObj.str "mqtt", PyObj.str "telegraf"])])]
      [("hue", fun _ => SendOutcome.ok true), ("telegraf", fun _ => SendOutcome.exc)]
      [("device_type", PyObj.str "ph")] =
      some (["hue", "mqtt", "telegraf"].map (fun n => (PyObj.str n,
        send_result [("hue", fun _ => SendOutcome.ok true),
                     ("telegraf", fun _ => SendOutcome.exc)]
          [("device_type", PyObj.str "ph")] n))) ∧
    (["hue", "mqtt", "telegraf"].map (fun n => (PyObj.str n,
        send_result [("hue", fun _ => SendOutcome.ok true),
                     ("telegraf", fun _ => SendOutcome.exc)]
          [("device_type", PyObj.str "ph")] n))).map Prod.fst =
      ["hue", "mqtt", "telegraf"].map PyObj.str ∧
    ((["hue", "mqtt", "telegraf"].map (fun n => (PyObj.str n,
        send_result [("hue", fun _ => SendOutcome.ok true),
                     ("telegraf", fun _ => SendOutcome.exc)]
          [("device_type", PyObj.str "ph")] n))).filter (fun p => p.2)).length =
      (["hue", "mqtt", "telegraf"].filter
        (send_result [("hue", fun _ => SendOutcome.ok true),
                      ("telegraf", fun _ => SendOutcome.exc)]
          [("device_type", PyObj.str "ph")])).length :=
  (c6_route_dispatch
      [("ph", PyObj.dict [("outputs",
        PyObj.list [PyObj.str "hue", PyObj.str "mqtt", PyObj.str "telegraf"])])]
      [("hue", fun _ => SendOutcome.ok true), ("telegraf", fun _ => SendOutcome.exc)]
      [("device_type", PyObj.str "ph")] "ph"
      [("outputs", PyObj.list [PyObj.str "hue", PyObj.str "mqtt", PyObj.str "telegraf"])]
      ["hue", "mqtt", "telegraf"] rfl (by decide)).1 rfl rfl (by decide)

/-! ## C7: light handler clamping -/

theorem light_mk_result_some (data : List (String × PyObj)) (v : List (String × PyObj))
    (did : PyObj) (h : lookupStr data "device_id" = some did) :
    ∃ res, light_mk_result data v = some res ∧ lookupStr res "value" = some (.dict v) := by
  unfold light_mk_result
  rw [h]
  refine ⟨_, rfl, ?_⟩
  rcases h1 : lookupStr data "raw_packet" with _ | rp <;>
    rcases h2 : lookupStr data "raw_data_string" with _ | rd <;>
      simp only [h1, h2] <;>
      (repeat' rw [lookupStr_setKey_ne _ _ _ _ (by decide)]) <;> rfl

/-- C7.  For a reading with device type `ph`: in `rgb` mode the handler
returns the reading with each of `r`, `g`, `b` independently clamped to
`[0,255]` (a missing channel defaulting to 0); in `cct` mode it returns
`brightness` clamped to `[0,100]` (missing → 0) and `kelvin` clamped to
`[2700,6500]` (missing → 3000); any other mode value (including a missing
mode) is rejected with no reading produced. -/
theorem c7_light_handler (data : List (String × PyObj)) (vkvs : List (String × PyObj))
    (hdt : lookupStr data "device_type" = some (.str "ph"))
    (hval : lookupStr data "value" = some (.dict vkvs)) :
    (lookupStr vkvs "mode" = some (.str "rgb") →
      ∀ did, lookupStr data "device_id" = some did →
      ∀ r g b : Int,
        (lookupStr vkvs "r").getD (.int 0) = .int r →
        (lookupStr vkvs "g").getD (.int 0) = .int g →
        (lookupStr vkvs "b").getD (.int 0) = .int b →
        ∃ res v', light_process data = some res ∧
          lookupStr res "value" = some (.dict v') ∧
          lookupStr v' "r" = some (.int (max 0 (min 255 r))) ∧
          lookupStr v' "g" = some (.int (max 0 (min 255 g))) ∧
          lookupStr v' "b" = some (.int (max 0 (min 255 b)))) ∧
    (lookupStr vkvs "mode" = some (.str "cct") →
      ∀ did, lookupStr data "device_id" = some did →
      ∀ br kv : Int,
        (lookupStr vkvs "brightness").getD (.int 0) = .int br →
        (lookupStr vkvs "kelvin").getD (.int 3000) = .int kv →
        ∃ res v', light_process data = some res ∧
          lookupStr res "value" = some (.dict v') ∧
          lookupStr v' "brightness" = some (.int (max 0 (min 100 br))) ∧
          lookupStr v' "kelvin" = some (.int (max 2700 (min 6500 kv)))) ∧
    (lookupStr vkvs "mode" ≠ some (.str "rgb") →
      lookupStr vkvs "mode" ≠ some (.str "cct") →
      light_process data = none) := by
  refine ⟨fun hm did hdid r g b hr hg hb => ?_, fun hm did hdid br kv hbr hkv => ?_,
    fun h1 h2 => ?_⟩
  · obtain ⟨res, hres, hval'⟩ := light_mk_result_some data
      (setKey (setKey (setKey vkvs "r" (.int (max 0 (min 255 r)))) "g"
        (.int (max 0 (min 255 g)))) "b" (.int (max 0 (min 255 b)))) did hdid
    refine ⟨res, _, ?_, hval', ?_, ?_, ?_⟩
    · simp only [light_process, hdt, hval, Option.getD_some, hm, hr, hg, hb, clamp_obj]
      exact hres
    · rw [lookupStr_setKey_ne _ _ _ _ (by decide), lookupStr_setKey_ne _ _ _ _ (by decide),
        lookupStr_setKey_self]
    · rw [lookupStr_setKey_ne _ _ _ _ (by decide), lookupStr_setKey_self]
    · rw [lookupStr_setKey_self]
  · obtain ⟨res, hres, hval'⟩ := light_mk_result_some data
      (setKey (setKey vkvs "brightness" (.int (max 0 (min 100 br)))) "kelvin"
        (.int (max 2700 (min 6500 kv)))) did hdid
    refine ⟨res, _, ?_, hval', ?_, ?_⟩
    · simp only [light_process, hdt, hval, Option.getD_some, hm, hbr, hkv, clamp_obj]
      exact hres
    · rw [lookupStr_setKey_ne _ _ _ _ (by decide), lookupStr_setKey_self]
    · rw [lookupStr_setKey_self]
  · simp only [light_process, hdt, hval, Option.getD_some]

/-- Witness for C7: the spec's clamp examples (r=300→255, g=-50→0;
brightness=150→100, kelvin=2000→2700) and an unknown-mode rejection. -/
theorem c7_light_handler_witness :
    (∃ res v', light_process
        [("device_type", PyObj.str "ph"), ("device_id", PyObj.str "1"),
         ("value", PyObj.dict [("mode", PyObj.str "rgb"), ("r", PyObj.int 300),
           ("g", PyObj.int (-50)), ("b", PyObj.int 128)])] = some res ∧
      lookupStr res "value" = some (.dict v') ∧
      lookupStr v' "r" = some (.int (max 0 (min 255 300))) ∧
      lookupStr v' "g" = some (.int (max 0 (min 255 (-50)))) ∧
      lookupStr v' "b" = some (.int (max 0 (min 255 128)))) ∧
    (∃ res v', light_process
        [("device_type", PyObj.str "ph"), ("device_id", PyObj.str "1"),
         ("value", PyObj.dict [("mode", PyObj.str "cct"),
           ("brightness", PyObj.int 150), ("kelvin", PyObj.int 2000)])] = some res ∧
      lookupStr res "value" = some (.dict v') ∧
      lookupStr v' "brightness" = some (.int (max 0 (min 100 150))) ∧
      lookupStr v' "kelvin" = some (.int (max 2700 (min 6500 2000)))) ∧
    light_process
        [("device_type", PyObj.str "ph"), ("device_id", PyObj.str "1"),
         ("value", PyObj.dict [("mode", PyObj.str "xyz")])] = none :=
  ⟨(c7_light_handler
      [("device_type", PyObj.str "ph"), ("device_id", PyObj.str "1"),
      ("value", PyObj.dict [("mode", PyObj.str "rgb"), ("r", PyObj.int 300),
      ("g", PyObj.int (-50)), ("b", PyObj.int 128)])]
      [("mode", PyObj.str "rgb"), ("r", PyObj.int 300),
      ("g", PyObj.int (-50)), ("b", PyObj.int 128)] rfl rfl).1 rfl
      (PyObj.str "1") rfl 300 (-50) 128 rfl rfl rfl,
   (c7_light_handler
      [("device_type", PyObj.str "ph"), ("device_id", PyObj.str "1"),
      ("value", PyObj.dict [("mode", PyObj.str "cct"), ("brightness", PyObj.int 150),
      ("kelvin", PyObj.int 2000)])]
      [("mode", PyObj.str "cct"), ("brightness", PyObj.int 150),
      ("kelvin", PyObj.int 2000)] rfl rfl).2.1 rfl
      (PyObj.str "1") rfl 150 2000 rfl rfl,
   (c7_light_handler
      [("device_type", PyObj.str "ph"), ("device_id", PyObj.str "1"),
      ("value", PyObj.dict [("mode", PyObj.str "xyz")])]
      [("mode", PyObj.str "xyz")] rfl rfl).2.2
      (by intro h; rw [show lookupStr [("mode", PyObj.str "xyz")] "mode" = some (PyObj.str "xyz") from rfl] at h; simp at h)
      (by intro h; rw [show lookupStr [("mode", PyObj.str "xyz")] "mode" = some (PyObj.str "xyz") from rfl] at h; simp at h)⟩

/-! ## C9: reconnection backoff schedule -/

theorem reconnect_loop_log_intervals (cfg : MqttRetryConfig) :
    ∀ (outs : List Bool) (c : Nat) (pr : Nat × Nat),
    pr ∈ (reconnect_loop cfg c outs).1 → pr.2 = retry_interval_for cfg pr.1 := by
  intro outs
  induction outs with
  | nil => intro c pr h; simp [reconnect_loop] at h
  | cons o rest ih =>
    intro c pr h
    rw [reconnect_loop] at h
    cases o with
    | true =>
      simp at h
      rw [h]
    | false =>
      simp at h
      rcases h with h | h
      · rw [h]
      · exact ih (c + 1) pr h

theorem reconnect_loop_log_numbers (cfg : MqttRetryConfig) :
    ∀ (outs : List Bool) (c : Nat),
    ((reconnect_loop cfg c outs).1).map Prod.fst =
      List.range' (c + 1) (reconnect_loop cfg c outs).1.length := by
  intro outs
  induction outs with
  | nil => intro c; simp [reconnect_loop]
  | cons o rest ih =>
    intro c
    rw [reconnect_loop]
    cases o with
    | true => simp
    | false =>
      simp only [Bool.false_eq_true, if_false, List.map_cons, List.length_cons]
      rw [ih (c + 1), List.range'_succ]

theorem reconnect_loop_connected (cfg : MqttRetryConfig) :
    ∀ (outs : List Bool) (c : Nat),
    (reconnect_loop cfg c outs).2.2 = outs.contains true := by
  intro outs
  induction outs with
  | nil => intro c; simp [reconnect_loop]
  | cons o rest ih =>
    intro c
    rw [reconnect_loop]
    cases o with
    | true => simp [List.contains_cons]
    | false => simp [List.contains_cons, ih (c + 1)]

theorem reconnect_loop_counter (cfg : MqttRetryConfig) :
    ∀ (outs : List Bool) (c : Nat),
    (reconnect_loop cfg c outs).2.1 =
      if (reconnect_loop cfg c outs).2.2 then 0 else c + outs.length := by
  intro outs
  induction outs with
  | nil => intro c; simp [reconnect_loop]
  | cons o rest ih =>
    intro c
    rw [reconnect_loop]
    cases o with
    | true => simp
    | false =>
      simp only [Bool.false_eq_true, if_false, List.length_cons]
      rw [ih (c + 1)]
      have : c + 1 + rest.length = c + (rest.length + 1) := by omega
      rw [this]

theorem reconnect_loop_log_length (cfg : MqttRetryConfig) :
    ∀ (outs : List Bool) (c : Nat),
    (reconnect_loop cfg c outs).1.length =
      (outs.takeWhile (fun o => o == false)).length +
        (if (reconnect_loop cfg c outs).2.2 then 1 else 0) := by
  intro outs
  induction outs with
  | nil => intro c; simp [reconnect_loop]
  | cons o rest ih =>
    intro c
    rw [reconnect_loop]
    cases o with
    | true => simp [List.takeWhile]
    | false =>
      simp only [Bool.false_eq_true, if_false, List.length_cons, List.takeWhile]
      simp only [show ((false == false) = true) from rfl, List.length_cons]
      rw [ih (c + 1)]
      omega

/-- C9.  In one activation of the reconnection loop started with counter 0:
attempts are numbered 1, 2, 3, …; every attempt numbered at most
`retry_initial_attempts` selects the short interval and every later attempt
the long interval, deterministically; the loop runs while connects fail, and
the first successful connect resets the counter to 0, marks the sink
connected and terminates the loop; if no connect succeeds the counter is
never reset and equals the number of attempts made. -/
theorem c9_backoff_schedule (cfg : MqttRetryConfig) (outs : List Bool) :
    (∀ pr ∈ (reconnect_loop cfg 0 outs).1,
      (pr.1 ≤ cfg.retry_initial_attempts → pr.2 = cfg.retry_initial_interval) ∧
      (cfg.retry_initial_attempts < pr.1 → pr.2 = cfg.retry_long_interval)) ∧
    ((reconnect_loop cfg 0 outs).1).map Prod.fst =
      List.range' 1 (reconnect_loop cfg 0 outs).1.length ∧
    (reconnect_loop cfg 0 outs).2.2 = outs.contains true ∧
    ((reconnect_loop cfg 0 outs).2.2 = true →
      (reconnect_loop cfg 0 outs).2.1 = 0 ∧
      (reconnect_loop cfg 0 outs).1.length =
        (outs.takeWhile (fun o => o == false)).length + 1) ∧
    ((reconnect_loop cfg 0 outs).2.2 = false →
      (reconnect_loop cfg 0 outs).2.1 = outs.length) := by
  refine ⟨fun pr hpr => ?_, reconnect_loop_log_numbers cfg outs 0,
    reconnect_loop_connected cfg outs 0, fun hconn => ⟨?_, ?_⟩, fun hconn => ?_⟩
  · have h := reconnect_loop_log_intervals cfg outs 0 pr hpr
    rw [h]
    unfold retry_interval_for
    constructor
    · intro hle
      rw [if_pos hle]
    · intro hlt
      rw [if_neg (by omega)]
  · rw [reconnect_loop_counter cfg outs 0, hconn, if_pos rfl]
  · rw [reconnect_loop_log_length cfg outs 0, hconn, if_pos rfl]
  · rw [reconnect_loop_counter cfg outs 0, hconn]
    simp

/-- Witness for C9 on a trace of 16 failures then one success with the
default configuration: attempt 16 selects the long interval, the final
counter is 0 and the loop made 17 attempts. -/
theorem c9_backoff_schedule_witness :
    ((16, 1800) ∈ (reconnect_loop (MqttRetryConfig.mk 60 15 1800) 0
        (List.replicate 16 false ++ [true])).1 →
      ((16 ≤ 15 → 1800 = 60) ∧ (15 < 16 → 1800 = 1800))) ∧
    ((reconnect_loop (MqttRetryConfig.mk 60 15 1800) 0
        (List.replicate 16 false ++ [true])).2.1 = 0 ∧
      (reconnect_loop (MqttRetryConfig.mk 60 15 1800) 0
        (List.replicate 16 false ++ [true])).1.length =
        (((List.replicate 16 false ++ [true]).takeWhile (fun o => o == false)).length
          + 1)) :=
  ⟨fun h => (c9_backoff_schedule (MqttRetryConfig.mk 60 15 1800)
      (List.replicate 16 false ++ [true])).1 (16, 1800) h,
   (c9_backoff_schedule (MqttRetryConfig.mk 60 15 1800)
      (List.replicate 16 false ++ [true])).2.2.2.1 (by decide)⟩

/-! ## C1: broker sink publish for pipeline readings -/

/-- C1 (bug evidence).  A packet decoded and handled by the pipeline reaches
the broker sink with none of the keys its `send` looks for (`raw_packet`,
`_raw_packet`, `raw_data_string`, or a top-level `raw_value`), because the
decoder attaches none of them (C10) and the light handler only copies them
when already present.  Hence, for the example packet, even on a connected
client and an accepting transport, `send` publishes nothing and returns
`false` — it never reaches the topic construction and publish step. -/
theorem c1_mqtt_send_never_publishes (jsonLoads : String → Option PyObj)
    (topicRoot : String) (publishAccepts : Bool) :
    (((parse_packet jsonLoads "2025-07-18 12:03:06;udplight;ph9.100050025").bind
        light_process).isSome = true) ∧
    ((parse_packet jsonLoads "2025-07-18 12:03:06;udplight;ph9.100050025").bind
        light_process).map (mqtt_send topicRoot true true publishAccepts) =
      some (none, false) :=
  ⟨rfl, rfl⟩
